import Mathlib

/-!
Verification of the TRAPI model adapter (file `minisweagent/models/trapi_model.py`).
The development shallowly embeds the configuration assembly performed by
`TrapiModel.__init__` together with `TrapiModelConfig.__post_init__`, the static
`MODEL_DICT` lookup table, the tenacity retry decorator applied to
`TrapiModel._query` (with `stop_after_attempt(10)`,
`wait_exponential(multiplier=1, min=4, max=60)` and
`retry_if_not_exception_type((KeyboardInterrupt,))`), and the response handling
and statistics updates of `TrapiModel.query`. The transport layer (the Azure
OpenAI client) is a parameter of the embedding: it maps the attempt number and
the outbound request to a provider outcome.
-/

namespace TrapiSpec

/-- A Python value carried in a keyword-argument mapping such as `model_kwargs`. -/
inductive PyVal where
  | str (v : String)
  | int (v : Int)
  | rat (v : Rat)
deriving DecidableEq

/-- Python exceptions observable from the adapter. `keyError` covers both the
environment lookups in `__init__` and the `MODEL_DICT` lookup in `_query`;
`transport` stands for a transport-class failure raised by the client call;
`retryError` is the tenacity `RetryError` wrapper raised when the attempt
budget is exhausted (the decorator leaves `reraise` at its default `False`);
`indexError` is the out-of-bounds access on `response.choices[0]`. -/
inductive Exc where
  | keyboardInterrupt
  | keyError (key : String)
  | transport (tag : Nat)
  | indexError
  | retryError (last : Exc)
deriving DecidableEq

/-- The `message` object of one choice of a chat-completion response; its
`content` may be null. -/
structure RespMessage where
  content : Option String
deriving DecidableEq

/-- One element of the `choices` list of a chat-completion response. -/
structure Choice where
  message : RespMessage
deriving DecidableEq

/-- A provider chat-completion response as read by `query`. -/
structure Response where
  choices : List Choice
deriving DecidableEq

/-- One conversation message handed to `query` (a role and content mapping). -/
structure ChatMessage where
  role : String
  content : String
deriving DecidableEq

/-- The static table mapping a logical model name to the deployment identifier,
transcribed from `MODEL_DICT` in the source. -/
def MODEL_DICT : List (String × String) := [
  ("gpt-4o", "gpt-4o_2024-11-20"),
  ("gpt-4_turbo", "gpt-4_turbo-2024-04-09"),
  ("gpt-4.1", "gpt-4.1_2025-04-14"),
  ("model-router", "model-router_2025-05-19"),
  ("o3", "o3_2025-04-16"),
  ("gpt-4o-mini", "gpt-4o-mini_2024-07-18"),
  ("o1", "o1_2024-12-17"),
  ("gpt-4.1-nano", "gpt-4.1-nano_2025-04-14"),
  ("gpt-4.1-mini", "gpt-4.1-mini_2025-04-14"),
  ("o4-mini", "o4-mini_2025-04-16"),
  ("text-embedding-3-large", "text-embedding-3-large_1"),
  ("text-embedding-3-small", "text-embedding-3-small_1"),
  ("computer-use-preview", "computer-use-preview_2025-03-11"),
  ("gpt-5", "gpt-5_2025-08-07"),
  ("gpt-5-mini", "gpt-5-mini_2025-08-07"),
  ("gpt-5-nano", "gpt-5-nano_2025-08-07"),
  ("gpt-5-chat", "gpt-5-chat_2025-08-07"),
  ("o1-mini", "o1-mini_2024-09-12"),
  ("gpt-image-1", "gpt-image-1"),
  ("grok-3", "grok-3_1")]

/-- The resolved adapter configuration, mirroring the dataclass
`TrapiModelConfig` after `__post_init__` has replaced a missing `model_kwargs`
with the empty mapping. -/
structure TrapiModelConfig where
  model_name : String
  «instance» : String
  api_version : String
  scope : String
  trapi_url : String
  model_kwargs : List (String × PyVal)
deriving DecidableEq

/-- Keyword arguments of `TrapiModel.__init__`; `none` marks an omitted
argument. -/
structure InitKwargs where
  model_name : Option String := none
  «instance» : Option String := none
  api_version : Option String := none
  scope : Option String := none
  trapi_url : Option String := none
  model_kwargs : Option (List (String × PyVal)) := none

/-- The configuration assembly of `TrapiModel.__init__`. The dict literal is
evaluated top to bottom: the mandatory subscript of `model_name` first
(raising `KeyError` when absent, with no environment fallback), then each
`kwargs.get(key, os.environ[var])` in order. Python evaluates the default
argument of `dict.get` eagerly, so every environment variable is read whether
or not the keyword argument is present, and a missing variable raises
`KeyError` naming that variable even when an explicit value was supplied.
When the environment lookups all succeed, each field takes the keyword
argument if present, else the environment value. `model_kwargs` falls back to
the empty mapping, matching both the `kwargs.get` default and
`TrapiModelConfig.__post_init__`. -/
def trapiInit (env : String → Option String) (kw : InitKwargs) :
    Except Exc TrapiModelConfig :=
  match kw.model_name with
  | none => Except.error (Exc.keyError "model_name")
  | some mn =>
    match env "TRAPI_INSTANCE" with
    | none => Except.error (Exc.keyError "TRAPI_INSTANCE")
    | some envInstance =>
      match env "TRAPI_API_VERSION" with
      | none => Except.error (Exc.keyError "TRAPI_API_VERSION")
      | some envApiVersion =>
        match env "TRAPI_SCOPE" with
        | none => Except.error (Exc.keyError "TRAPI_SCOPE")
        | some envScope =>
          match env "TRAPI_URL" with
          | none => Except.error (Exc.keyError "TRAPI_URL")
          | some envUrl =>
            Except.ok {
              model_name := mn,
              «instance» := kw.«instance».getD envInstance,
              api_version := kw.api_version.getD envApiVersion,
              scope := kw.scope.getD envScope,
              trapi_url := kw.trapi_url.getD envUrl,
              model_kwargs := kw.model_kwargs.getD [] }

/-- Python dict union `a | b` on association lists with the key semantics of
Python dicts: the keys of `a` in order, with the value overridden by `b` on a
key present in both, followed by the keys of `b` absent from `a`, in order. -/
def pyDictUnion (a b : List (String × PyVal)) : List (String × PyVal) :=
  (a.map fun p =>
    match List.lookup p.1 b with
    | some v => (p.1, v)
    | none => p)
  ++ b.filter fun p => (List.lookup p.1 a).isNone

/-- The chat-completion request issued by `_query` through
`client.chat.completions.create`. -/
structure OutboundRequest where
  model : String
  messages : List ChatMessage
  options : List (String × PyVal)
deriving DecidableEq

/-- The body of `TrapiModel._query` up to the network transport: merge the
configured `model_kwargs` with the per-call kwargs (per-call values win), then
resolve the deployment identifier through `MODEL_DICT`. The lookup is an
argument of the client call, so a miss raises `KeyError` with the logical name
before any network request is issued. -/
def trapiBuildRequest (cfg : TrapiModelConfig) (messages : List ChatMessage)
    (kwargs : List (String × PyVal)) : Except Exc OutboundRequest :=
  let merged_kwargs := pyDictUnion cfg.model_kwargs kwargs
  match List.lookup cfg.model_name MODEL_DICT with
  | none => Except.error (Exc.keyError cfg.model_name)
  | some dep => Except.ok { model := dep, messages := messages, options := merged_kwargs }

/-- The wait computed by `wait_exponential(multiplier=1, min=4, max=60)` after
failed attempt `n`: tenacity evaluates
`max(min, min(multiplier * 2 ** (attempt_number - 1), max))`. -/
def waitExponential (n : Nat) : Nat :=
  max 4 (min (2 ^ (n - 1)) 60)

deriving instance DecidableEq for Except

/-- The observable trace of one decorated `_query` call: the final outcome,
the number of attempts executed, the network requests actually issued in
order, and the backoff waits slept between attempts. -/
structure RunTrace where
  result : Except Exc Response
  attempts : Nat
  requests : List OutboundRequest
  waits : List Nat
deriving DecidableEq

/-- The tenacity retry loop at attempt `n` with `fuel` retries remaining.
After a failed attempt the retry predicate is consulted first: a
`KeyboardInterrupt` is re-raised unchanged at once
(`retry_if_not_exception_type`); any other failure is retried until the stop
condition `stop_after_attempt(10)` holds, at which point a `RetryError`
wrapping the last failure is raised, because `reraise` is left at its default
`False`. A successful attempt returns its value immediately. -/
def retryGo (attemptFn : Nat → Except Exc Response × List OutboundRequest)
    (n : Nat) (fuel : Nat) (reqs : List OutboundRequest) (waits : List Nat) :
    RunTrace :=
  match attemptFn n, fuel with
  | (Except.ok v, newReqs), _ =>
      { result := Except.ok v, attempts := n, requests := reqs ++ newReqs, waits := waits }
  | (Except.error e, newReqs), 0 =>
      if e = Exc.keyboardInterrupt then
        { result := Except.error e, attempts := n, requests := reqs ++ newReqs, waits := waits }
      else
        { result := Except.error (Exc.retryError e), attempts := n,
          requests := reqs ++ newReqs, waits := waits }
  | (Except.error e, newReqs), f + 1 =>
      if e = Exc.keyboardInterrupt then
        { result := Except.error e, attempts := n, requests := reqs ++ newReqs, waits := waits }
      else
        retryGo attemptFn (n + 1) f (reqs ++ newReqs) (waits ++ [waitExponential n])

/-- The retry decorator applied to `_query`: first attempt numbered 1, at most
9 further attempts (`stop_after_attempt(10)`). -/
def tenacityRun (attemptFn : Nat → Except Exc Response × List OutboundRequest) :
    RunTrace :=
  retryGo attemptFn 1 9 [] []

/-- One attempt of the decorated `_query`: assemble the request (a failure
here, such as a `MODEL_DICT` miss, issues no network call) and otherwise hand
it to the transport `net`, which maps the attempt number and the request to
the provider outcome. -/
def trapiAttempt (cfg : TrapiModelConfig) (messages : List ChatMessage)
    (kwargs : List (String × PyVal))
    (net : Nat → OutboundRequest → Except Exc Response) (n : Nat) :
    Except Exc Response × List OutboundRequest :=
  match trapiBuildRequest cfg messages kwargs with
  | Except.error e => (Except.error e, [])
  | Except.ok req => (net n req, [req])

/-- The full retried `_query` call. -/
def trapiRun (cfg : TrapiModelConfig) (messages : List ChatMessage)
    (kwargs : List (String × PyVal))
    (net : Nat → OutboundRequest → Except Exc Response) : RunTrace :=
  tenacityRun (trapiAttempt cfg messages kwargs net)

/-- Usage statistics touched by `query`: the per-adapter `n_calls` and `cost`
counters and the process-wide `GLOBAL_MODEL_STATS` cost accumulator. -/
structure Stats where
  n_calls : Nat
  cost : Rat
  global_cost : Rat
deriving DecidableEq

/-- The normalized record returned by `query`. -/
structure QueryResult where
  content : String
deriving DecidableEq

/-- The body of `TrapiModel.query`: run the retried `_query`; a failure
propagates and leaves the statistics unchanged. On success the cost is fixed
at zero, `n_calls` is incremented and the zero cost is added to both cost
accumulators, and only then is `response.choices[0]` read, so an empty
`choices` list raises `IndexError` after the counters moved. Otherwise the
result is the first choice content, with the empty string substituted for a
null content. -/
def trapiQuery (cfg : TrapiModelConfig) (messages : List ChatMessage)
    (kwargs : List (String × PyVal))
    (net : Nat → OutboundRequest → Except Exc Response) (st : Stats) :
    Except Exc QueryResult × Stats :=
  match (trapiRun cfg messages kwargs net).result with
  | Except.error e => (Except.error e, st)
  | Except.ok response =>
      let cost : Rat := 0
      let st2 : Stats := {
        n_calls := st.n_calls + 1,
        cost := st.cost + cost,
        global_cost := st.global_cost + cost }
      match response.choices with
      | [] => (Except.error Exc.indexError, st2)
      | c :: _ => (Except.ok { content := c.message.content.getD "" }, st2)

/-- A transport that fails with a transport-class error on every attempt;
`ts` picks the error tag of each attempt. -/
def netAlwaysFail (ts : Nat → Nat) : Nat → OutboundRequest → Except Exc Response :=
  fun n _ => Except.error (Exc.transport (ts n))

/-- A transport that fails with transport-class errors until a
`KeyboardInterrupt` is raised during attempt `k`. -/
def netInterruptAt (k : Nat) (ts : Nat → Nat) :
    Nat → OutboundRequest → Except Exc Response :=
  fun n _ =>
    if n < k then Except.error (Exc.transport (ts n))
    else Except.error Exc.keyboardInterrupt

/-- A transport that fails with transport-class errors on the first `c`
attempts and then answers `resp`. -/
def netRecoverAt (c : Nat) (ts : Nat → Nat) (resp : Response) :
    Nat → OutboundRequest → Except Exc Response :=
  fun n _ =>
    if n ≤ c then Except.error (Exc.transport (ts n))
    else Except.ok resp

/-- The backoff waits slept starting after failed attempt `n`, for `s`
consecutive failed attempts. -/
def backoffWaits (n : Nat) : Nat → List Nat
  | 0 => []
  | s + 1 => waitExponential n :: backoffWaits (n + 1) s

/-- The requests issued by `s` consecutive attempts that each issue the
request list `nr`. -/
def joinedRequests (nr : List OutboundRequest) : Nat → List OutboundRequest
  | 0 => []
  | s + 1 => nr ++ joinedRequests nr s

/-- A configuration whose logical model name has no entry in `MODEL_DICT`. -/
def cfgUnknown : TrapiModelConfig :=
  { model_name := "gpt-oss", «instance» := "gcr/shared",
    api_version := "2025-03-01-preview", scope := "api://trapi/.default",
    trapi_url := "https://trapi.example", model_kwargs := [] }

/-- A configuration for the known logical model name gpt-4o with no
configured per-call overrides. -/
def cfgKnown : TrapiModelConfig :=
  { model_name := "gpt-4o", «instance» := "gcr/shared",
    api_version := "2025-03-01-preview", scope := "api://trapi/.default",
    trapi_url := "https://trapi.example", model_kwargs := [] }

/-- A configuration for gpt-4o with a configured temperature override. -/
def cfgWithKwargs : TrapiModelConfig :=
  { model_name := "gpt-4o", «instance» := "gcr/shared",
    api_version := "2025-03-01-preview", scope := "api://trapi/.default",
    trapi_url := "https://trapi.example",
    model_kwargs := [("temperature", PyVal.rat (7 / 10))] }

/-- An environment defining all four TRAPI variables. -/
def envFull : String → Option String := fun k =>
  if k = "TRAPI_INSTANCE" then some "gcr/shared"
  else if k = "TRAPI_API_VERSION" then some "2025-03-01-preview"
  else if k = "TRAPI_SCOPE" then some "api://trapi/.default"
  else if k = "TRAPI_URL" then some "https://trapi.example"
  else none

/-- The environment of `envFull` with TRAPI_INSTANCE removed. -/
def envMissingInstance : String → Option String := fun k =>
  if k = "TRAPI_INSTANCE" then none else envFull k

/-- An environment defining no variables at all. -/
def envEmpty : String → Option String := fun _ => none

/-- Keyword arguments supplying every field explicitly. -/
def kwAllExplicit : InitKwargs :=
  { model_name := some "gpt-4o", «instance» := some "custom-instance",
    api_version := some "custom-api-version", scope := some "custom-scope",
    trapi_url := some "custom-url", model_kwargs := some [] }

/-- Keyword arguments supplying only the model name. -/
def kwModelOnly : InitKwargs := { model_name := some "gpt-4o" }

/-- The outbound request assembled by `_query` for a configuration whose
logical model name maps to deployment identifier `dep`. -/
def builtRequest (cfg : TrapiModelConfig) (messages : List ChatMessage)
    (kwargs : List (String × PyVal)) (dep : String) : OutboundRequest :=
  { model := dep, messages := messages,
    options := pyDictUnion cfg.model_kwargs kwargs }

/-- A second configuration with an unmapped logical model name. -/
def cfgUnknown2 : TrapiModelConfig :=
  { model_name := "unknown-model", «instance» := "gcr/shared",
    api_version := "2025-03-01-preview", scope := "api://trapi/.default",
    trapi_url := "https://trapi.example", model_kwargs := [] }

/-- A successful attempt returns its value at once, whatever the remaining
attempt budget. -/
theorem retryGo_ok (attemptFn : Nat → Except Exc Response × List OutboundRequest)
    (n fuel : Nat) (reqs : List OutboundRequest) (waits : List Nat)
    (v : Response) (newReqs : List OutboundRequest)
    (h : attemptFn n = (Except.ok v, newReqs)) :
    retryGo attemptFn n fuel reqs waits =
      { result := Except.ok v, attempts := n, requests := reqs ++ newReqs,
        waits := waits } := by
  cases fuel <;> rw [retryGo.eq_def, h]

/-- A `KeyboardInterrupt` is re-raised unchanged at once, whatever the
remaining attempt budget. -/
theorem retryGo_interrupt (attemptFn : Nat → Except Exc Response × List OutboundRequest)
    (n fuel : Nat) (reqs : List OutboundRequest) (waits : List Nat)
    (newReqs : List OutboundRequest)
    (h : attemptFn n = (Except.error Exc.keyboardInterrupt, newReqs)) :
    retryGo attemptFn n fuel reqs waits =
      { result := Except.error Exc.keyboardInterrupt, attempts := n,
        requests := reqs ++ newReqs, waits := waits } := by
  cases fuel <;> rw [retryGo.eq_def, h] <;> simp

/-- With the attempt budget spent, a retryable failure raises `RetryError`
wrapping the failure of the final attempt. -/
theorem retryGo_error_stop (attemptFn : Nat → Except Exc Response × List OutboundRequest)
    (n : Nat) (reqs : List OutboundRequest) (waits : List Nat)
    (e : Exc) (newReqs : List OutboundRequest)
    (h : attemptFn n = (Except.error e, newReqs)) (he : e ≠ Exc.keyboardInterrupt) :
    retryGo attemptFn n 0 reqs waits =
      { result := Except.error (Exc.retryError e), attempts := n,
        requests := reqs ++ newReqs, waits := waits } := by
  rw [retryGo.eq_def, h]
  simp [he]

/-- With budget left, a retryable failure sleeps the exponential wait of the
current attempt number and moves to the next attempt. -/
theorem retryGo_error_step (attemptFn : Nat → Except Exc Response × List OutboundRequest)
    (n fuel : Nat) (reqs : List OutboundRequest) (waits : List Nat)
    (e : Exc) (newReqs : List OutboundRequest)
    (hfuel : fuel ≠ 0)
    (h : attemptFn n = (Except.error e, newReqs)) (he : e ≠ Exc.keyboardInterrupt) :
    retryGo attemptFn n fuel reqs waits =
      retryGo attemptFn (n + 1) (fuel - 1) (reqs ++ newReqs)
        (waits ++ [waitExponential n]) := by
  cases fuel with
  | zero => exact absurd rfl hfuel
  | succ f => rw [retryGo.eq_def, h]; simp [he]

/-- Attempts that issue no request contribute no request. -/
theorem joinedRequests_nil (s : Nat) : joinedRequests [] s = [] := by
  induction s with
  | zero => rfl
  | succ s ih => simp [joinedRequests, ih]

/-- One more block of requests at the back. -/
theorem joinedRequests_snoc (nr : List OutboundRequest) (s : Nat) :
    joinedRequests nr s ++ nr = joinedRequests nr (s + 1) := by
  induction s with
  | zero => simp [joinedRequests]
  | succ s ih =>
    show (nr ++ joinedRequests nr s) ++ nr = joinedRequests nr (s + 1 + 1)
    rw [List.append_assoc, ih]
    simp [joinedRequests]

/-- Length of the requests of `s` attempts issuing `nr` each. -/
theorem length_joinedRequests (nr : List OutboundRequest) (s : Nat) :
    (joinedRequests nr s).length = s * nr.length := by
  induction s with
  | zero => simp [joinedRequests]
  | succ s ih => simp [joinedRequests, ih]; ring

/-- Running the loop across `s` consecutive retryable failures advances the
attempt number by `s`, spends `s` units of budget, accumulates the issued
requests, and sleeps the exponential backoff waits in order. -/
theorem retryGo_advance (attemptFn : Nat → Except Exc Response × List OutboundRequest)
    (err : Nat → Exc) (nr : List OutboundRequest)
    (he : ∀ m, err m ≠ Exc.keyboardInterrupt) :
    ∀ (s n fuel : Nat) (reqs : List OutboundRequest) (waits : List Nat), s ≤ fuel →
      (∀ m, n ≤ m → m < n + s → attemptFn m = (Except.error (err m), nr)) →
      retryGo attemptFn n fuel reqs waits =
        retryGo attemptFn (n + s) (fuel - s) (reqs ++ joinedRequests nr s)
          (waits ++ backoffWaits n s) := by
  intro s
  induction s with
  | zero =>
    intro n fuel reqs waits _ _
    simp [joinedRequests, backoffWaits]
  | succ s ih =>
    intro n fuel reqs waits hs h
    rw [retryGo_error_step attemptFn n fuel reqs waits (err n) nr (by omega)
      (h n (le_refl n) (by omega)) (he n)]
    rw [ih (n + 1) (fuel - 1) (reqs ++ nr) (waits ++ [waitExponential n]) (by omega)
      (fun m hm hlt => h m (by omega) (by omega))]
    have h1 : n + 1 + s = n + (s + 1) := by omega
    have h2 : fuel - 1 - s = fuel - (s + 1) := by omega
    rw [h1, h2]
    simp [joinedRequests, backoffWaits]

/-- The decorated call under sustained retryable failure: all 10 attempts
run, the 9 backoff waits are slept, and the failure of attempt 10 is raised
wrapped in `RetryError`. -/
theorem tenacityRun_exhaust (attemptFn : Nat → Except Exc Response × List OutboundRequest)
    (err : Nat → Exc) (nr : List OutboundRequest)
    (h : ∀ m, 1 ≤ m → m ≤ 10 → attemptFn m = (Except.error (err m), nr))
    (he : ∀ m, err m ≠ Exc.keyboardInterrupt) :
    tenacityRun attemptFn =
      { result := Except.error (Exc.retryError (err 10)), attempts := 10,
        requests := joinedRequests nr 10, waits := backoffWaits 1 9 } := by
  rw [tenacityRun, retryGo_advance attemptFn err nr he 9 1 9 [] [] (le_refl 9)
    (fun m hm hlt => h m hm (by omega))]
  rw [retryGo_error_stop attemptFn 10 _ _ (err 10) nr (h 10 (by omega) (by omega)) (he 10)]
  simp [joinedRequests_snoc]

/-- The decorated call with retryable failures on attempts below `k` and a
success at attempt `k ≤ 10`. -/
theorem tenacityRun_success (attemptFn : Nat → Except Exc Response × List OutboundRequest)
    (err : Nat → Exc) (nr : List OutboundRequest) (k : Nat)
    (v : Response) (nrk : List OutboundRequest)
    (hk1 : 1 ≤ k) (hk10 : k ≤ 10)
    (h : ∀ m, 1 ≤ m → m < k → attemptFn m = (Except.error (err m), nr))
    (he : ∀ m, err m ≠ Exc.keyboardInterrupt)
    (hk : attemptFn k = (Except.ok v, nrk)) :
    tenacityRun attemptFn =
      { result := Except.ok v, attempts := k,
        requests := joinedRequests nr (k - 1) ++ nrk,
        waits := backoffWaits 1 (k - 1) } := by
  rw [tenacityRun, retryGo_advance attemptFn err nr he (k - 1) 1 9 [] [] (by omega)
    (fun m hm hlt => h m hm (by omega))]
  have h1 : 1 + (k - 1) = k := by omega
  rw [h1, retryGo_ok attemptFn k _ _ _ v nrk hk]
  simp

/-- The decorated call with retryable failures on attempts below `k` and a
`KeyboardInterrupt` during attempt `k ≤ 10`. -/
theorem tenacityRun_interrupted (attemptFn : Nat → Except Exc Response × List OutboundRequest)
    (err : Nat → Exc) (nr : List OutboundRequest) (k : Nat)
    (nrk : List OutboundRequest)
    (hk1 : 1 ≤ k) (hk10 : k ≤ 10)
    (h : ∀ m, 1 ≤ m → m < k → attemptFn m = (Except.error (err m), nr))
    (he : ∀ m, err m ≠ Exc.keyboardInterrupt)
    (hk : attemptFn k = (Except.error Exc.keyboardInterrupt, nrk)) :
    tenacityRun attemptFn =
      { result := Except.error Exc.keyboardInterrupt, attempts := k,
        requests := joinedRequests nr (k - 1) ++ nrk,
        waits := backoffWaits 1 (k - 1) } := by
  rw [tenacityRun, retryGo_advance attemptFn err nr he (k - 1) 1 9 [] [] (by omega)
    (fun m hm hlt => h m hm (by omega))]
  have h1 : 1 + (k - 1) = k := by omega
  rw [h1, retryGo_interrupt attemptFn k _ _ _ nrk hk]
  simp

/-- Lookup distributes over list append, preferring the left list. -/
theorem lookup_append (k : String) (l₁ l₂ : List (String × PyVal)) :
    List.lookup k (l₁ ++ l₂) = (List.lookup k l₁).or (List.lookup k l₂) := by
  induction l₁ with
  | nil => simp [List.lookup]
  | cons p rest ih =>
    obtain ⟨k₀, v₀⟩ := p
    cases hbeq : k == k₀ with
    | true => simp [List.lookup, hbeq]
    | false => simp [List.lookup, hbeq, ih]

/-- Lookup in the overridden copy of `a`: same keys, values replaced by the
binding in `b` when `b` has one. -/
theorem lookup_map_override (a b : List (String × PyVal)) (k : String) :
    List.lookup k (a.map fun p =>
        match List.lookup p.1 b with
        | some v => (p.1, v)
        | none => p) =
      (List.lookup k a).map fun v => (List.lookup k b).getD v := by
  induction a with
  | nil => simp [List.lookup]
  | cons p rest ih =>
    obtain ⟨k₀, v₀⟩ := p
    cases hb : List.lookup k₀ b with
    | none =>
      cases hbeq : k == k₀ with
      | true =>
        have hk : k = k₀ := eq_of_beq hbeq
        subst hk
        simp [List.lookup, hb]
      | false => simp [List.lookup, hb, hbeq, ih]
    | some w =>
      cases hbeq : k == k₀ with
      | true =>
        have hk : k = k₀ := eq_of_beq hbeq
        subst hk
        simp [List.lookup, hb]
      | false => simp [List.lookup, hb, hbeq, ih]

/-- Lookup in the part of `b` whose keys are absent from `a`. -/
theorem lookup_filter_absent (a b : List (String × PyVal)) (k : String) :
    List.lookup k (b.filter fun p => (List.lookup p.1 a).isNone) =
      if (List.lookup k a).isNone then List.lookup k b else none := by
  induction b with
  | nil => simp [List.lookup]
  | cons p rest ih =>
    obtain ⟨k₁, v₁⟩ := p
    cases hbeq : k == k₁ with
    | true =>
      have hk : k = k₁ := eq_of_beq hbeq
      subst hk
      cases ha : List.lookup k a with
      | none => simp [List.filter, List.lookup, ha, ih]
      | some w => simp [List.filter, List.lookup, ha, ih]
    | false =>
      cases ha1 : List.lookup k₁ a with
      | none => simp [List.filter, List.lookup, ha1, hbeq, ih]
      | some w => simp [List.filter, List.lookup, ha1, hbeq, ih]

/-- Lookup in the Python dict union `a | b` is right-biased: the binding of
`b` wins on a key present in both, and a key present in one side keeps its
value. -/
theorem lookup_pyDictUnion (a b : List (String × PyVal)) (k : String) :
    List.lookup k (pyDictUnion a b) = (List.lookup k b).or (List.lookup k a) := by
  rw [pyDictUnion, lookup_append, lookup_map_override, lookup_filter_absent]
  cases ha : List.lookup k a with
  | none => cases hb : List.lookup k b <;> simp
  | some v => cases hb : List.lookup k b <;> simp

/-- C9 (confirmed): for every logical model name present in MODEL_DICT, the
outbound request built by the query body carries exactly the deployment
identifier that the table maps to that name, together with the caller
messages and the merged options. -/
theorem C9_model_lookup (cfg : TrapiModelConfig) (messages : List ChatMessage)
    (kwargs : List (String × PyVal)) (dep : String)
    (hdep : List.lookup cfg.model_name MODEL_DICT = some dep) :
    trapiBuildRequest cfg messages kwargs =
      Except.ok { model := dep, messages := messages,
                  options := pyDictUnion cfg.model_kwargs kwargs } := by
  simp [trapiBuildRequest, hdep]

/-- C9 witness: the logical name gpt-4o resolves to the deployment
identifier of its table entry. -/
theorem C9_model_lookup_witness :
    trapiBuildRequest cfgKnown [] [] =
      Except.ok { model := "gpt-4o_2024-11-20", messages := [], options := [] } :=
  C9_model_lookup cfgKnown [] [] "gpt-4o_2024-11-20" rfl

/-- C8 (confirmed): in the merged options of any assembled outbound request,
lookup of a key gives the per-call value when the per-call mapping binds the
key, else the configured value: a key present in both mappings takes the
per-invocation value, and a key present in only one mapping passes through
with its value unchanged. -/
theorem C8_merge_precedence (cfg : TrapiModelConfig) (messages : List ChatMessage)
    (kwargs : List (String × PyVal)) (k : String) (req : OutboundRequest)
    (h : trapiBuildRequest cfg messages kwargs = Except.ok req) :
    List.lookup k req.options =
      (List.lookup k kwargs).or (List.lookup k cfg.model_kwargs) := by
  simp only [trapiBuildRequest] at h
  cases hd : List.lookup cfg.model_name MODEL_DICT with
  | none => rw [hd] at h; cases h
  | some dep =>
    rw [hd] at h
    simp only [Except.ok.injEq] at h
    rw [← h]
    exact lookup_pyDictUnion cfg.model_kwargs kwargs k

/-- C8 witness: configured temperature 7/10 with per-call max_tokens 100
merges so that max_tokens is found with value 100, matching the spec
example. -/
theorem C8_merge_precedence_witness :
    List.lookup "max_tokens"
        (pyDictUnion [("temperature", PyVal.rat (7 / 10))]
          [("max_tokens", PyVal.int 100)]) =
      some (PyVal.int 100) :=
  C8_merge_precedence cfgWithKwargs [] [("max_tokens", PyVal.int 100)] "max_tokens"
    { model := "gpt-4o_2024-11-20", messages := [],
      options := pyDictUnion [("temperature", PyVal.rat (7 / 10))]
        [("max_tokens", PyVal.int 100)] }
    rfl

/-- C4 (corrected): the model name must be supplied explicitly and a missing
model name fails with KeyError naming model_name; each remaining field takes
the explicit keyword argument if present, else the environment value, but the
environment variable of each field is read unconditionally, so any unset
variable fails construction with KeyError naming that variable, in the order
TRAPI_INSTANCE, TRAPI_API_VERSION, TRAPI_SCOPE, TRAPI_URL, even when the
corresponding keyword argument was supplied. -/
theorem C4_config_resolution (env : String → Option String) (kw : InitKwargs) :
    (kw.model_name = none →
      trapiInit env kw = Except.error (Exc.keyError "model_name")) ∧
    (∀ mn, kw.model_name = some mn → env "TRAPI_INSTANCE" = none →
      trapiInit env kw = Except.error (Exc.keyError "TRAPI_INSTANCE")) ∧
    (∀ mn ei, kw.model_name = some mn → env "TRAPI_INSTANCE" = some ei →
      env "TRAPI_API_VERSION" = none →
      trapiInit env kw = Except.error (Exc.keyError "TRAPI_API_VERSION")) ∧
    (∀ mn ei ea, kw.model_name = some mn → env "TRAPI_INSTANCE" = some ei →
      env "TRAPI_API_VERSION" = some ea → env "TRAPI_SCOPE" = none →
      trapiInit env kw = Except.error (Exc.keyError "TRAPI_SCOPE")) ∧
    (∀ mn ei ea es, kw.model_name = some mn → env "TRAPI_INSTANCE" = some ei →
      env "TRAPI_API_VERSION" = some ea → env "TRAPI_SCOPE" = some es →
      env "TRAPI_URL" = none →
      trapiInit env kw = Except.error (Exc.keyError "TRAPI_URL")) ∧
    (∀ mn ei ea es eu, kw.model_name = some mn → env "TRAPI_INSTANCE" = some ei →
      env "TRAPI_API_VERSION" = some ea → env "TRAPI_SCOPE" = some es →
      env "TRAPI_URL" = some eu →
      trapiInit env kw = Except.ok {
        model_name := mn,
        «instance» := kw.«instance».getD ei,
        api_version := kw.api_version.getD ea,
        scope := kw.scope.getD es,
        trapi_url := kw.trapi_url.getD eu,
        model_kwargs := kw.model_kwargs.getD [] }) := by
  refine ⟨?_, ?_, ?_, ?_, ?_, ?_⟩ <;> intros <;> simp_all [trapiInit]

/-- C4 witness: with all four variables set and only the model name given,
construction succeeds with the environment values; with TRAPI_INSTANCE unset
it fails naming TRAPI_INSTANCE. -/
theorem C4_config_resolution_witness :
    trapiInit envFull kwModelOnly = Except.ok
      { model_name := "gpt-4o", «instance» := "gcr/shared",
        api_version := "2025-03-01-preview", scope := "api://trapi/.default",
        trapi_url := "https://trapi.example", model_kwargs := [] } ∧
    trapiInit envMissingInstance kwModelOnly
      = Except.error (Exc.keyError "TRAPI_INSTANCE") :=
  ⟨(C4_config_resolution envFull kwModelOnly).2.2.2.2.2 "gpt-4o" "gcr/shared"
      "2025-03-01-preview" "api://trapi/.default" "https://trapi.example"
      rfl rfl rfl rfl rfl,
   (C4_config_resolution envMissingInstance kwModelOnly).2.1 "gpt-4o" rfl rfl⟩

/-- C4 counterexample: with an explicit instance argument supplied but
TRAPI_INSTANCE unset, construction fails with KeyError naming
TRAPI_INSTANCE, although the resolution order stated in the claim (explicit
argument if present, else environment) would not consult the environment and
would succeed. -/
theorem C4_counterexample :
    kwAllExplicit.«instance» = some "custom-instance" ∧
    trapiInit envMissingInstance kwAllExplicit
      = Except.error (Exc.keyError "TRAPI_INSTANCE") := ⟨rfl, rfl⟩

/-- C5 (corrected): provided the four environment variables are set (they
are read regardless, though their values go unused), a construction that
supplies every required field explicitly succeeds, the resolved configuration
echoes exactly the supplied values, and model_kwargs defaults to the empty
mapping when absent. -/
theorem C5_explicit_construction (env : String → Option String)
    (mn iv av sv uv : String) (mkw : Option (List (String × PyVal)))
    (ei ea es eu : String)
    (hi : env "TRAPI_INSTANCE" = some ei) (ha : env "TRAPI_API_VERSION" = some ea)
    (hs : env "TRAPI_SCOPE" = some es) (hu : env "TRAPI_URL" = some eu) :
    trapiInit env
      { model_name := some mn, «instance» := some iv,
        api_version := some av, scope := some sv, trapi_url := some uv,
        model_kwargs := mkw } =
      Except.ok { model_name := mn, «instance» := iv, api_version := av,
                  scope := sv, trapi_url := uv, model_kwargs := mkw.getD [] } := by
  simp [trapiInit, hi, ha, hs, hu]

/-- C5 witness: an all-explicit construction under a full environment
echoes the supplied values and defaults model_kwargs to the empty mapping. -/
theorem C5_explicit_construction_witness :
    trapiInit envFull
      { model_name := some "gpt-4o", «instance» := some "custom-instance",
        api_version := some "custom-api-version", scope := some "custom-scope",
        trapi_url := some "custom-url", model_kwargs := none } =
      Except.ok
        { model_name := "gpt-4o", «instance» := "custom-instance",
          api_version := "custom-api-version", scope := "custom-scope",
          trapi_url := "custom-url", model_kwargs := [] } :=
  C5_explicit_construction envFull "gpt-4o" "custom-instance" "custom-api-version"
    "custom-scope" "custom-url" none "gcr/shared" "2025-03-01-preview"
    "api://trapi/.default" "https://trapi.example" rfl rfl rfl rfl

/-- C5 counterexample: with every required field supplied explicitly but an
empty environment, construction fails instead of succeeding, because the
environment defaults are evaluated eagerly. -/
theorem C5_counterexample :
    trapiInit envEmpty kwAllExplicit = Except.error (Exc.keyError "TRAPI_INSTANCE") := rfl


/-- C1 (corrected): for a logical model name absent from MODEL_DICT, a
query call fails only after the full 10-attempt retry cycle, with a
RetryError wrapping the KeyError naming the requested logical name; no
network request is ever issued and the statistics are unchanged. -/
theorem C1_unknown_model (cfg : TrapiModelConfig) (messages : List ChatMessage)
    (kwargs : List (String × PyVal)) (net : Nat → OutboundRequest → Except Exc Response)
    (st : Stats)
    (hmiss : List.lookup cfg.model_name MODEL_DICT = none) :
    trapiQuery cfg messages kwargs net st =
      (Except.error (Exc.retryError (Exc.keyError cfg.model_name)), st) ∧
    (trapiRun cfg messages kwargs net).requests = [] ∧
    (trapiRun cfg messages kwargs net).attempts = 10 := by
  have hrun : trapiRun cfg messages kwargs net =
      { result := Except.error (Exc.retryError (Exc.keyError cfg.model_name)),
        attempts := 10, requests := joinedRequests [] 10,
        waits := backoffWaits 1 9 } := by
    rw [trapiRun]
    exact tenacityRun_exhaust _ (fun _ => Exc.keyError cfg.model_name) []
      (fun m _ _ => by simp [trapiAttempt, trapiBuildRequest, hmiss])
      (fun m => by simp)
  refine ⟨?_, ?_, ?_⟩
  · rw [trapiQuery, hrun]
  · rw [hrun, joinedRequests_nil]
  · rw [hrun]

/-- C1 witness: a query against the unmapped name unknown-model runs 10
attempts, issues no request, raises the wrapped KeyError and leaves the
counters alone. -/
theorem C1_unknown_model_witness :
    trapiQuery cfgUnknown2 [] [] (netAlwaysFail fun _ => 0) ⟨7, 0, 0⟩ =
      (Except.error (Exc.retryError (Exc.keyError "unknown-model")), ⟨7, 0, 0⟩) ∧
    (trapiRun cfgUnknown2 [] [] (netAlwaysFail fun _ => 0)).requests = [] ∧
    (trapiRun cfgUnknown2 [] [] (netAlwaysFail fun _ => 0)).attempts = 10 :=
  C1_unknown_model cfgUnknown2 [] [] (netAlwaysFail fun _ => 0) ⟨7, 0, 0⟩ rfl

/-- C1 counterexample: the lookup miss for gpt-oss is retried through all
10 attempts and surfaces wrapped in RetryError, not as the bare KeyError the
claim describes as an immediate, unretried failure. -/
theorem C1_counterexample :
    (trapiRun cfgUnknown [] [] (netAlwaysFail fun _ => 0)).attempts = 10 ∧
    (trapiRun cfgUnknown [] [] (netAlwaysFail fun _ => 0)).requests = [] ∧
    (trapiRun cfgUnknown [] [] (netAlwaysFail fun _ => 0)).result =
      Except.error (Exc.retryError (Exc.keyError "gpt-oss")) ∧
    (trapiRun cfgUnknown [] [] (netAlwaysFail fun _ => 0)).result ≠
      Except.error (Exc.keyError "gpt-oss") := by
  refine ⟨rfl, rfl, rfl, ?_⟩
  decide

/-- C2 (corrected): under transport failure on every attempt, exactly 10
attempts and 10 network requests are issued, the waits slept between attempts
are 4, 4, 4, 8, 16, 32, 60, 60, 60 (exponential doubling from a 4-unit floor
capped at 60), the call raises a RetryError wrapping the failure of attempt
10 rather than that terminal transport error itself, and the call counter
does not change. -/
theorem C2_retry_exhaustion (cfg : TrapiModelConfig) (messages : List ChatMessage)
    (kwargs : List (String × PyVal)) (st : Stats) (dep : String) (ts : Nat → Nat)
    (hdep : List.lookup cfg.model_name MODEL_DICT = some dep) :
    trapiQuery cfg messages kwargs (netAlwaysFail ts) st =
      (Except.error (Exc.retryError (Exc.transport (ts 10))), st) ∧
    (trapiRun cfg messages kwargs (netAlwaysFail ts)).attempts = 10 ∧
    (trapiRun cfg messages kwargs (netAlwaysFail ts)).requests.length = 10 ∧
    (trapiRun cfg messages kwargs (netAlwaysFail ts)).waits =
      [4, 4, 4, 8, 16, 32, 60, 60, 60] := by
  have hb : trapiBuildRequest cfg messages kwargs =
      Except.ok (builtRequest cfg messages kwargs dep) := by
    simp [trapiBuildRequest, builtRequest, hdep]
  have hrun : trapiRun cfg messages kwargs (netAlwaysFail ts) =
      { result := Except.error (Exc.retryError (Exc.transport (ts 10))),
        attempts := 10,
        requests := joinedRequests [builtRequest cfg messages kwargs dep] 10,
        waits := backoffWaits 1 9 } := by
    rw [trapiRun]
    exact tenacityRun_exhaust _ (fun m => Exc.transport (ts m))
      [builtRequest cfg messages kwargs dep]
      (fun m _ _ => by simp [trapiAttempt, hb, netAlwaysFail])
      (fun m => by simp)
  refine ⟨?_, ?_, ?_, ?_⟩
  · rw [trapiQuery, hrun]
  · rw [hrun]
  · rw [hrun, length_joinedRequests]; simp
  · rw [hrun]; rfl

/-- C2 witness: sustained transport failure tagged by attempt number
exhausts the 10 attempts with the documented waits and unchanged
statistics. -/
theorem C2_retry_exhaustion_witness :
    trapiQuery cfgKnown [] [] (netAlwaysFail fun n => n) ⟨0, 0, 0⟩ =
      (Except.error (Exc.retryError (Exc.transport 10)), ⟨0, 0, 0⟩) ∧
    (trapiRun cfgKnown [] [] (netAlwaysFail fun n => n)).attempts = 10 ∧
    (trapiRun cfgKnown [] [] (netAlwaysFail fun n => n)).requests.length = 10 ∧
    (trapiRun cfgKnown [] [] (netAlwaysFail fun n => n)).waits =
      [4, 4, 4, 8, 16, 32, 60, 60, 60] :=
  C2_retry_exhaustion cfgKnown [] [] ⟨0, 0, 0⟩ "gpt-4o_2024-11-20" (fun n => n) rfl

/-- C2 counterexample: after sustained failure the raised exception is the
RetryError wrapper, not the terminal transport error the claim says is
raised. -/
theorem C2_counterexample :
    (trapiQuery cfgKnown [] [] (netAlwaysFail fun _ => 7) ⟨0, 0, 0⟩).1 =
      Except.error (Exc.retryError (Exc.transport 7)) ∧
    (trapiQuery cfgKnown [] [] (netAlwaysFail fun _ => 7) ⟨0, 0, 0⟩).1 ≠
      Except.error (Exc.transport 7) := by
  refine ⟨rfl, ?_⟩
  decide

/-- C3 (confirmed): a KeyboardInterrupt raised during any attempt k of the
10 aborts the retry loop at attempt k with no further attempts, propagates to
the caller unchanged, and leaves the call counter unchanged. -/
theorem C3_keyboard_interrupt (cfg : TrapiModelConfig) (messages : List ChatMessage)
    (kwargs : List (String × PyVal)) (st : Stats) (dep : String) (k : Nat)
    (ts : Nat → Nat)
    (hdep : List.lookup cfg.model_name MODEL_DICT = some dep)
    (hk1 : 1 ≤ k) (hk10 : k ≤ 10) :
    trapiQuery cfg messages kwargs (netInterruptAt k ts) st =
      (Except.error Exc.keyboardInterrupt, st) ∧
    (trapiRun cfg messages kwargs (netInterruptAt k ts)).attempts = k := by
  have hb : trapiBuildRequest cfg messages kwargs =
      Except.ok (builtRequest cfg messages kwargs dep) := by
    simp [trapiBuildRequest, builtRequest, hdep]
  have hrun : trapiRun cfg messages kwargs (netInterruptAt k ts) =
      { result := Except.error Exc.keyboardInterrupt, attempts := k,
        requests := joinedRequests [builtRequest cfg messages kwargs dep] (k - 1) ++
          [builtRequest cfg messages kwargs dep],
        waits := backoffWaits 1 (k - 1) } := by
    rw [trapiRun]
    exact tenacityRun_interrupted _ (fun m => Exc.transport (ts m))
      [builtRequest cfg messages kwargs dep] k
      [builtRequest cfg messages kwargs dep] hk1 hk10
      (fun m hm1 hmk => by simp [trapiAttempt, hb, netInterruptAt, hmk])
      (fun m => by simp)
      (by simp [trapiAttempt, hb, netInterruptAt])
  refine ⟨?_, ?_⟩
  · rw [trapiQuery, hrun]
  · rw [hrun]

/-- C3 witness: an interrupt during attempt 3 aborts after exactly 3
attempts with unchanged statistics. -/
theorem C3_keyboard_interrupt_witness :
    trapiQuery cfgKnown [] [] (netInterruptAt 3 fun n => n) ⟨0, 0, 0⟩ =
      (Except.error Exc.keyboardInterrupt, ⟨0, 0, 0⟩) ∧
    (trapiRun cfgKnown [] [] (netInterruptAt 3 fun n => n)).attempts = 3 :=
  C3_keyboard_interrupt cfgKnown [] [] ⟨0, 0, 0⟩ "gpt-4o_2024-11-20" 3 (fun n => n)
    rfl (by decide) (by decide)

/-- C6 (confirmed): with transport failures on the first N attempts (N
below 10) and a success on attempt N + 1 whose first choice carries content
s, the query returns the record with content s, exactly N + 1 network
requests are issued, the call counter rises by exactly 1 (not N + 1), and
both cost accumulators rise by exactly zero. -/
theorem C6_eventual_success (cfg : TrapiModelConfig) (messages : List ChatMessage)
    (kwargs : List (String × PyVal)) (st : Stats) (dep : String) (N : Nat)
    (ts : Nat → Nat) (s : String) (rest : List Choice)
    (hdep : List.lookup cfg.model_name MODEL_DICT = some dep) (hN : N < 10) :
    trapiQuery cfg messages kwargs
        (netRecoverAt N ts { choices := { message := { content := some s } } :: rest }) st =
      (Except.ok { content := s },
       { n_calls := st.n_calls + 1, cost := st.cost, global_cost := st.global_cost }) ∧
    (trapiRun cfg messages kwargs
        (netRecoverAt N ts { choices := { message := { content := some s } } :: rest })).attempts
      = N + 1 ∧
    (trapiRun cfg messages kwargs
        (netRecoverAt N ts
          { choices := { message := { content := some s } } :: rest })).requests.length
      = N + 1 := by
  have hb : trapiBuildRequest cfg messages kwargs =
      Except.ok (builtRequest cfg messages kwargs dep) := by
    simp [trapiBuildRequest, builtRequest, hdep]
  have hnot : ¬ (N + 1 ≤ N) := by omega
  have hrun : trapiRun cfg messages kwargs
      (netRecoverAt N ts { choices := { message := { content := some s } } :: rest }) =
      { result := Except.ok { choices := { message := { content := some s } } :: rest },
        attempts := N + 1,
        requests := joinedRequests [builtRequest cfg messages kwargs dep] (N + 1 - 1) ++
          [builtRequest cfg messages kwargs dep],
        waits := backoffWaits 1 (N + 1 - 1) } := by
    rw [trapiRun]
    exact tenacityRun_success _ (fun m => Exc.transport (ts m))
      [builtRequest cfg messages kwargs dep] (N + 1)
      { choices := { message := { content := some s } } :: rest }
      [builtRequest cfg messages kwargs dep]
      (by omega) (by omega)
      (fun m hm1 hmk => by
        have hle : m ≤ N := by omega
        simp [trapiAttempt, hb, netRecoverAt, hle])
      (fun m => by simp)
      (by simp [trapiAttempt, hb, netRecoverAt, hnot])
  refine ⟨?_, ?_, ?_⟩
  · rw [trapiQuery, hrun]; simp
  · rw [hrun]
  · rw [hrun]; simp [length_joinedRequests]

/-- C6 witness: two transport failures followed by the response Test
response yield that content after 3 attempts with the counter at 1. -/
theorem C6_eventual_success_witness :
    trapiQuery cfgKnown [] []
        (netRecoverAt 2 (fun n => n)
          { choices := [{ message := { content := some "Test response" } }] }) ⟨0, 0, 0⟩ =
      (Except.ok { content := "Test response" }, ⟨1, 0, 0⟩) ∧
    (trapiRun cfgKnown [] []
        (netRecoverAt 2 (fun n => n)
          { choices := [{ message := { content := some "Test response" } }] })).attempts = 3 ∧
    (trapiRun cfgKnown [] []
        (netRecoverAt 2 (fun n => n)
          { choices := [{ message := { content := some "Test response" } }] })).requests.length
      = 3 :=
  C6_eventual_success cfgKnown [] [] ⟨0, 0, 0⟩ "gpt-4o_2024-11-20" 2 (fun n => n)
    "Test response" [] rfl (by decide)

/-- C7 (confirmed): a successful response whose first choice carries no
message content makes the query return the empty string as content, never a
null or absent field, while the counters move as on any success. -/
theorem C7_null_content (cfg : TrapiModelConfig) (messages : List ChatMessage)
    (kwargs : List (String × PyVal)) (st : Stats) (dep : String) (rest : List Choice)
    (hdep : List.lookup cfg.model_name MODEL_DICT = some dep) :
    trapiQuery cfg messages kwargs
        (fun _ _ => Except.ok { choices := { message := { content := none } } :: rest }) st =
      (Except.ok { content := "" },
       { n_calls := st.n_calls + 1, cost := st.cost, global_cost := st.global_cost }) := by
  have hb : trapiBuildRequest cfg messages kwargs =
      Except.ok (builtRequest cfg messages kwargs dep) := by
    simp [trapiBuildRequest, builtRequest, hdep]
  have hrun : trapiRun cfg messages kwargs
      (fun _ _ => Except.ok { choices := { message := { content := none } } :: rest }) =
      { result := Except.ok { choices := { message := { content := none } } :: rest },
        attempts := 1,
        requests := [] ++ [builtRequest cfg messages kwargs dep],
        waits := [] } := by
    rw [trapiRun, tenacityRun]
    exact retryGo_ok _ 1 9 [] []
      { choices := { message := { content := none } } :: rest }
      [builtRequest cfg messages kwargs dep]
      (by simp [trapiAttempt, hb])
  rw [trapiQuery, hrun]
  simp

/-- C7 witness: a first-attempt response with null content returns the
empty string. -/
theorem C7_null_content_witness :
    trapiQuery cfgKnown [] []
        (fun _ _ => Except.ok { choices := [{ message := { content := none } }] }) ⟨0, 0, 0⟩ =
      (Except.ok { content := "" }, ⟨1, 0, 0⟩) :=
  C7_null_content cfgKnown [] [] ⟨0, 0, 0⟩ "gpt-4o_2024-11-20" [] rfl

/-- C10 (confirmed): a successful provider response with an empty choices
list makes the query raise IndexError rather than return a result; the
empty-string substitution applies only to the content of an existing first
choice. -/
theorem C10_empty_choices (cfg : TrapiModelConfig) (messages : List ChatMessage)
    (kwargs : List (String × PyVal)) (st : Stats) (dep : String)
    (hdep : List.lookup cfg.model_name MODEL_DICT = some dep) :
    (trapiQuery cfg messages kwargs (fun _ _ => Except.ok { choices := [] }) st).1 =
      Except.error Exc.indexError := by
  have hb : trapiBuildRequest cfg messages kwargs =
      Except.ok (builtRequest cfg messages kwargs dep) := by
    simp [trapiBuildRequest, builtRequest, hdep]
  have hrun : trapiRun cfg messages kwargs (fun _ _ => Except.ok { choices := [] }) =
      { result := Except.ok { choices := [] },
        attempts := 1,
        requests := [] ++ [builtRequest cfg messages kwargs dep],
        waits := [] } := by
    rw [trapiRun, tenacityRun]
    exact retryGo_ok _ 1 9 [] [] { choices := [] }
      [builtRequest cfg messages kwargs dep]
      (by simp [trapiAttempt, hb])
  rw [trapiQuery, hrun]

/-- C10 witness: an empty choices list raises IndexError. -/
theorem C10_empty_choices_witness :
    (trapiQuery cfgKnown [] [] (fun _ _ => Except.ok { choices := [] }) ⟨0, 0, 0⟩).1 =
      Except.error Exc.indexError :=
  C10_empty_choices cfgKnown [] [] ⟨0, 0, 0⟩ "gpt-4o_2024-11-20" rfl

end TrapiSpec
